import Mathlib

/-!
# peerswap plugin bootstrap (`cmd/peerswap/main.go`)

A shallow embedding of `run`, `validateConfig`, `getBitcoinChain`,
`getBitcoinClient`, `getNetworkFolder` and `getNetworkPort`.

`run` talks to many collaborators (the lightning plugin, the elements and
bitcoin RPC clients, the bbolt database, the policy loader, the swap and poll
services).  Every answer of a collaborator is a field of `World`; the calls
that `run` makes on its own goroutine are recorded, in program order, as a
list of `Event`s.  The bodies of the goroutines that `run` spawns are not part
of the model: only the spawn itself is recorded.
-/

namespace Peerswap

/-! ## Values -/

/-- A Go `error` value.  `errorsNew msg` is an error made by `errors.New(msg)`
inside `main.go`; `collaborator msg` is an error value handed back by a call
into another package, `msg` being its text.  Go compares such values by
identity, so the two kinds are kept apart even when the texts agree. -/
inductive GoError where
  | errorsNew (msg : String)
  | collaborator (msg : String)
deriving DecidableEq, Repr

/-- The four `chaincfg` parameter sets `getBitcoinChain` can point to. -/
inductive ChainParams where
  | RegressionNetParams
  | TestNet3Params
  | SigNetParams
  | MainNetParams
deriving DecidableEq, Repr

/-- The three `network.Network` values `validateConfig` can point to. -/
inductive LiquidNetwork where
  | Regtest
  | Testnet
  | Liquid
deriving DecidableEq, Repr

/-- Modelled from the spec: the declaration of `peerswap.Config` is not part of
the sources at hand; the fields are the ones `main.go` reads and writes. -/
structure Config where
  DbPath : String
  PolicyPath : String
  LiquidRpcUser : String
  LiquidRpcPassword : String
  LiquidRpcPasswordFile : String
  LiquidRpcHost : String
  LiquidRpcPort : Nat
  LiquidRpcWallet : String
  LiquidNetworkString : String
  LiquidNetwork : Option LiquidNetwork
  LiquidEnabled : Bool
deriving DecidableEq, Repr

/-- A value stored in `ImportantPlugin.Options` (`map[string]interface{}` filled
by `json.Unmarshal`): the nil interface, a string, or a value of another
dynamic type (bool, float64, slice, map). -/
inductive OptionValue where
  | null
  | str (s : String)
  | other
deriving DecidableEq, Repr

/-- The struct `ImportantPlugin`; `Options` is the map as a key/value list. -/
structure ImportantPlugin where
  Path : String
  Name : String
  Options : List (String × OptionValue)
deriving DecidableEq, Repr

/-- The struct `ListConfigRes`; its elements are pointers and may be nil. -/
structure ListConfigRes where
  ImportantPlugins : List (Option ImportantPlugin)
deriving DecidableEq, Repr

/-- Which chain RPC a watcher polls: `txwatcher.NewElementsCli(liquidCli)` or
`txwatcher.NewBitcoinRpc(bitcoinCli)`. -/
inductive ChainRpc where
  | elementsCli
  | bitcoinRpc
deriving DecidableEq, Repr

/-- The handle returned by `gelements.NewElements(user, password)`. -/
structure Elements where
  rpcUser : String
  rpcPassword : String
deriving DecidableEq, Repr

/-- The handle returned by `gbitcoin.NewBitcoin(user, password)`. -/
structure Bitcoin where
  rpcUser : String
  rpcPassword : String
deriving DecidableEq, Repr

/-- The handle returned by `wallet.NewRpcWallet(cli, walletName)`. -/
structure ElementsRpcWallet where
  cli : Elements
  walletName : String
deriving DecidableEq, Repr

/-- The handle returned by
`txwatcher.NewBlockchainRpcTxWatcher(ctx, rpc, requiredDepth)`. -/
structure BlockchainRpcTxWatcher where
  rpc : ChainRpc
  requiredDepth : Nat
deriving DecidableEq, Repr

/-! ## `time` constants (Go standard library, nanoseconds in an int64) -/

/-- A `time.Duration`: a count of nanoseconds. -/
abbrev Duration := Int

def Nanosecond : Duration := 1
def Microsecond : Duration := 1000 * Nanosecond
def Millisecond : Duration := 1000 * Microsecond
def Second : Duration := 1000 * Millisecond
def Minute : Duration := 60 * Second
def Hour : Duration := 60 * Minute

/-! ## Events and the execution monad -/

/-- One call made by `run` (or by a function it calls) on the main goroutine. -/
inductive Event where
  | logPrintf (format : String)
  | newClightningClient
  | registerOptions
  | registerMethods
  | goPluginStart
  | recvInitChan
  | getConfig
  | ioutilReadFile (path : String)
  | newElements (rpcUser rpcPassword : String)
  | elementsStartUp (cli : Elements) (host : String) (port : Nat)
  | newRpcWallet (cli : Elements) (walletName : String)
  | newBlockchainRpcTxWatcher (rpc : ChainRpc) (requiredDepth : Nat)
  | newLiquidOnChain (network : Option LiquidNetwork)
  | getInfo
  | listConfigs
  | jsonMarshal
  | jsonUnmarshal
  | osStat (path : String)
  | osReadFile (path : String)
  | newBitcoin (rpcUser rpcPassword : String)
  | bitcoinSetTimeout (seconds : Nat)
  | bitcoinStartUp (host user : String) (port : Nat)
  | newBitcoinOnChain (chain : ChainParams)
  | bboltOpen (path : String) (mode : Nat)
  | policyCreateFromFile (path : String)
  | newBboltStore
  | newRequestedSwapsStore
  | newSwapService (liquidEnabled : Bool) (liquidOnChain : Bool)
      (bitcoinEnabled : Bool) (bitcoinOnChain : Bool)
  | goStartWatchingTxs (watcher : BlockchainRpcTxWatcher)
  | swapServiceStart
  | swapServiceRecoverSwaps
  | pollNewStore
  | pollNewService (tickDuration removeDuration : Duration) (assets : List String)
  | pollServiceStart
  | pollServiceStop
  | newRequestedSwapsPrinter
  | setupClients (liquidRpcWallet : Option ElementsRpcWallet) (liquidCli : Option Elements)
  | recvQuitChan
  | cancel
deriving DecidableEq, Repr

/-- Why a function does not return to its caller. -/
inductive Halt where
  | panic
  | blocked
deriving DecidableEq, Repr

/-- How a call ends: it returns a value, it returns a non-nil `error`, or it
does not return (a runtime panic, or a channel receive that never completes). -/
inductive Res (α : Type) where
  | ok (a : α)
  | err (e : GoError)
  | stop (h : Halt)
deriving DecidableEq, Repr

/-- A computation: the events it performed and how it ended. -/
structure M (α : Type) where
  trace : List Event
  res : Res α

namespace M

def ret {α : Type} (a : α) : M α := ⟨[], .ok a⟩

def andThen {α β : Type} (m : M α) (f : α → M β) : M β :=
  match m.res with
  | .ok a => ⟨m.trace ++ (f a).trace, (f a).res⟩
  | .err e => ⟨m.trace, .err e⟩
  | .stop h => ⟨m.trace, .stop h⟩

end M

instance : Monad M where
  pure := M.ret
  bind := M.andThen

/-- Record one event. -/
def emit (e : Event) : M Unit := ⟨[e], .ok ()⟩

/-- Return the error `e` (`return err`, `return nil, err`). -/
def fail {α : Type} (e : GoError) : M α := ⟨[], .err e⟩

/-- Stop without returning. -/
def halt {α : Type} (h : Halt) : M α := ⟨[], .stop h⟩

/-- A collaborator call whose only result is an `error`; the answer is `none`
for a nil error and the text of the error otherwise. -/
def call (e : Event) (answer : Option String) : M Unit :=
  match answer with
  | none => emit e
  | some err => ⟨[e], .err (.collaborator err)⟩

/-- A collaborator call that returns a value and an `error`. -/
def callVal {α : Type} (e : Event) (answer : Except String α) : M α :=
  match answer with
  | .ok a => ⟨[e], .ok a⟩
  | .error err => ⟨[e], .err (.collaborator err)⟩

/-- A channel receive: it completes when a value arrives. -/
def recv (e : Event) (arrives : Bool) : M Unit :=
  if arrives then emit e else ⟨[e], .stop .blocked⟩

/-! ## The collaborators' answers -/

/-- The answers of everything outside `main.go`, one field per call site.  An
error answer carries the text of the collaborator's error.  `filepathJoin` and
`strconvAtoi` stand for `filepath.Join` and `strconv.Atoi`. -/
structure World where
  newClightningClient : Option String
  registerOptions : Option String
  registerMethods : Option String
  initArrives : Bool
  getConfig : Except String Config
  readPasswordFile : Except String String
  liquidCliStartUp : Option String
  liquidWalletCliStartUp : Option String
  newRpcWallet : Option String
  getInfoChain : Except String String
  listConfigs : Option String
  getInfoClient : Except String String
  jsonMarshal : Option String
  jsonUnmarshal : Except String (Option ListConfigRes)
  cookieNotExist : Bool
  readCookieFile : Except String String
  bitcoinStartUp : Option String
  bboltOpen : Option String
  policyCreateFromFile : Option String
  newBboltStore : Option String
  newRequestedSwapsStore : Option String
  swapServiceStart : Option String
  swapServiceRecoverSwaps : Option String
  pollNewStore : Option String
  quitArrives : Bool
  filepathJoin : List String → String
  strconvAtoi : String → Except String Int

/-! ## `getNetworkFolder`, `getNetworkPort`, `getBitcoinChain` -/

def getNetworkFolder (network : String) : String :=
  if network = "regtest" then "regtest"
  else if network = "testnet" then "testnet3"
  else if network = "signet" then "signet"
  else ""

def getNetworkPort (network : String) : Nat :=
  if network = "regtest" then 18332
  else if network = "testnet" then 18332
  else if network = "signet" then 38332
  else 8332

def getBitcoinChain (w : World) : M ChainParams := do
  let gi ← callVal .getInfo w.getInfoChain
  if gi = "regtest" then pure .RegressionNetParams
  else if gi = "testnet" then pure .TestNet3Params
  else if gi = "signet" then pure .SigNetParams
  else if gi = "bitcoin" then pure .MainNetParams
  else fail (.errorsNew "unknown bitcoin network")

/-! ## String helpers (`strings.TrimRight`, `strings.Split`) -/

/-- `strings.TrimRight(s, cutset)`: drop every trailing character of `cutset`. -/
def stringsTrimRight (s cutset : String) : String :=
  String.mk (s.toList.reverse.dropWhile (fun c => cutset.toList.contains c)).reverse

/-- Splitting a character list at every `sep`; `cur` is the current piece,
reversed. -/
def splitAux (sep : Char) : List Char → List Char → List String
  | [], cur => [String.mk cur.reverse]
  | c :: cs, cur =>
    if c = sep then String.mk cur.reverse :: splitAux sep cs []
    else splitAux sep cs (c :: cur)

/-- `strings.Split(s, sep)` for a separator of one character. -/
def stringsSplit (s : String) (sep : Char) : List String :=
  splitAux sep s.toList []

/-- The conversion `uint(n)` of an `int` on a 64-bit platform. -/
def toUint (n : Int) : Nat := (n % 2 ^ 64).toNat

/-! ## `validateConfig` -/

def validateConfig (w : World) (cfg0 : Config) : M Config := do
  let mut cfg := cfg0
  if cfg.LiquidRpcUser = "" then
    cfg := { cfg with LiquidEnabled := false }
  else
    cfg := { cfg with LiquidEnabled := true }
  if cfg.LiquidEnabled then
    let liquidNetwork : LiquidNetwork :=
      if cfg.LiquidNetworkString = "regtest" then .Regtest
      else if cfg.LiquidNetworkString = "testnet" then .Testnet
      else .Liquid
    cfg := { cfg with LiquidNetwork := some liquidNetwork }
    if cfg.LiquidRpcPasswordFile ≠ "" then
      emit (.ioutilReadFile cfg.LiquidRpcPasswordFile)
      match w.readPasswordFile with
      | .error err =>
        emit (.logPrintf "error reading file: %v")
        fail (.collaborator err)
      | .ok passBytes =>
        let passString := stringsTrimRight passBytes "\r\n"
        cfg := { cfg with LiquidRpcPassword := passString }
  return cfg

/-! ## `getBitcoinClient` -/

/-- The loop `for _, v := range listconfigRes.ImportantPlugins`: the last
element named "bcli" wins; reading `v.Name` through a nil pointer panics. -/
def findBcli : List (Option ImportantPlugin) → Option ImportantPlugin →
    M (Option ImportantPlugin)
  | [], bcliConfig => pure bcliConfig
  | none :: _, _ => halt .panic
  | some v :: rest, bcliConfig =>
    findBcli rest (if v.Name = "bcli" then some v else bcliConfig)

def getBitcoinClient (w : World) : M (Option Bitcoin) := do
  call .listConfigs w.listConfigs
  let gi ← callVal .getInfo w.getInfoClient
  call .jsonMarshal w.jsonMarshal
  let listconfigRes ← callVal .jsonUnmarshal w.jsonUnmarshal
  let bcliConfig ← match listconfigRes with
    | none => halt .panic
    | some r => findBcli r.ImportantPlugins none
  match bcliConfig with
  | none => fail (.errorsNew "bcli config not found")
  | some bcliConfig =>
    match bcliConfig.Options.lookup "bitcoin-rpcuser" with
    | none =>
      emit (.logPrintf "looking for bitcoin cookie")
      -- look for cookie file
      match bcliConfig.Options.lookup "bitcoin-datadir" with
      | some (.str bitcoinDir) =>
        let cookiePath := w.filepathJoin [bitcoinDir, getNetworkFolder gi, ".cookie"]
        emit (.osStat cookiePath)
        if w.cookieNotExist then
          emit (.logPrintf "cannot find bitcoin cookie file at %s")
          pure none
        else
          let cookieBytes ← callVal (.osReadFile cookiePath) w.readCookieFile
          match stringsSplit cookieBytes ':' with
          | c0 :: c1 :: _ =>
            -- use cookie for auth
            emit (.newBitcoin c0 c1)
            -- assume localhost and standard network ports
            let rpcHost := "http://127.0.0.1"
            let rpcPort := getNetworkPort gi
            emit (.logPrintf "connecting with %s, %s to %s, %v")
            call (.bitcoinStartUp rpcHost "" rpcPort) w.bitcoinStartUp
            pure (some ⟨c0, c1⟩)
          | _ => halt .panic
      | _ =>
        emit (.logPrintf "no `bitcoin-datadir` config set")
        pure none
    | some rpcUser =>
      -- assume auth authentication
      match bcliConfig.Options.lookup "bitcoin-rpcpassword" with
      | none =>
        emit (.logPrintf "`bitcoin-rpcpassword` not set in lightning config")
        pure none
      | some rpcPass =>
        match rpcUser, rpcPass with
        | .str user, .str pass =>
          emit (.newBitcoin user pass)
          emit (.bitcoinSetTimeout 10)
          match bcliConfig.Options.lookup "bitcoin-rpcport" with
          | none =>
            emit (.logPrintf "`bitcoin-rpcport` not set in lightning config")
            pure none
          | some (.str rpcPortStr) =>
            match w.strconvAtoi rpcPortStr with
            | .error err => fail (.collaborator err)
            | .ok rpcPort =>
              /- We default to localhost -/
              let rpcConnStr ← match bcliConfig.Options.lookup "bitcoin-rpcconnect" with
                | none => pure "localhost"
                | some .null => pure "localhost"
                | some (.str s) => pure s
                | some .other => halt .panic
              call (.bitcoinStartUp ("http://" ++ rpcConnStr) "" (toUint rpcPort)) w.bitcoinStartUp
              pure (some ⟨user, pass⟩)
          | some _ => halt .panic
        | _, _ => halt .panic

/-! ## `run` -/

/-- The body of `run`, up to its `return`; `supportedAssets` is the package
variable of that name as it stands when `run` is entered. -/
def runBody (supportedAssets0 : List String) (w : World) : M Unit := do
  let mut supportedAssets := supportedAssets0
  -- initialize
  call .newClightningClient w.newClightningClient
  call .registerOptions w.registerOptions
  call .registerMethods w.registerMethods
  -- start lightningPlugin plugin
  emit .goPluginStart
  recv .recvInitChan w.initArrives
  emit (.logPrintf "waiting for init finished")
  let config ← callVal .getConfig w.getConfig
  let config ← validateConfig w config
  emit (.logPrintf "Config: Db:%s, Rpc: %s %s, network: %s")
  -- setup services
  -- liquid
  let mut liquidOnChainService : Bool := false
  let mut liquidTxWatcher : Option BlockchainRpcTxWatcher := none
  let mut liquidRpcWallet : Option ElementsRpcWallet := none
  let mut liquidCli : Option Elements := none
  if config.LiquidEnabled then
    supportedAssets := supportedAssets ++ ["l-btc"]
    emit (.logPrintf "Liquid swaps enabled")
    -- blockchaincli
    let cli : Elements := ⟨config.LiquidRpcUser, config.LiquidRpcPassword⟩
    emit (.newElements config.LiquidRpcUser config.LiquidRpcPassword)
    liquidCli := some cli
    call (.elementsStartUp cli config.LiquidRpcHost config.LiquidRpcPort) w.liquidCliStartUp
    -- Wallet
    let liquidWalletCli : Elements := ⟨config.LiquidRpcUser, config.LiquidRpcPassword⟩
    emit (.newElements config.LiquidRpcUser config.LiquidRpcPassword)
    call (.elementsStartUp liquidWalletCli config.LiquidRpcHost config.LiquidRpcPort)
      w.liquidWalletCliStartUp
    call (.newRpcWallet liquidWalletCli config.LiquidRpcWallet) w.newRpcWallet
    liquidRpcWallet := some ⟨liquidWalletCli, config.LiquidRpcWallet⟩
    -- txwatcher
    emit (.newBlockchainRpcTxWatcher .elementsCli 2)
    liquidTxWatcher := some ⟨.elementsCli, 2⟩
    -- LiquidChain
    emit (.newLiquidOnChain config.LiquidNetwork)
    liquidOnChainService := true
  else
    emit (.logPrintf "Liquid swaps disabled")
  -- bitcoin
  let chain ← getBitcoinChain w
  let bitcoinCli ← getBitcoinClient w
  let mut bitcoinTxWatcher : Option BlockchainRpcTxWatcher := none
  let mut bitcoinOnChainService : Bool := false
  let mut bitcoinEnabled : Bool := false
  if bitcoinCli.isSome then
    supportedAssets := supportedAssets ++ ["btc"]
    emit (.logPrintf "Bitcoin swaps enabled")
    bitcoinEnabled := true
    emit (.newBlockchainRpcTxWatcher .bitcoinRpc 3)
    bitcoinTxWatcher := some ⟨.bitcoinRpc, 3⟩
    emit (.newBitcoinOnChain chain)
    bitcoinOnChainService := true
  else
    emit (.logPrintf "Bitcoin swaps disabled")
  if !bitcoinEnabled && !config.LiquidEnabled then
    fail (.errorsNew "bad config, either liquid or bitcoin settings must be set")
  -- db
  call (.bboltOpen (w.filepathJoin [config.DbPath, "swaps"]) 0o700) w.bboltOpen
  -- policy
  call (.policyCreateFromFile config.PolicyPath) w.policyCreateFromFile
  emit (.logPrintf "using policy:\n%s")
  call .newBboltStore w.newBboltStore
  call .newRequestedSwapsStore w.newRequestedSwapsStore
  emit (.newSwapService config.LiquidEnabled liquidOnChainService
    bitcoinEnabled bitcoinOnChainService)
  if let some watcher := liquidTxWatcher then
    emit (.goStartWatchingTxs watcher)
  if let some watcher := bitcoinTxWatcher then
    emit (.goStartWatchingTxs watcher)
  call .swapServiceStart w.swapServiceStart
  call .swapServiceRecoverSwaps w.swapServiceRecoverSwaps
  call .pollNewStore w.pollNewStore
  emit (.pollNewService (1 * Hour) (2 * Hour) supportedAssets)
  emit .pollServiceStart
  emit .newRequestedSwapsPrinter
  emit (.setupClients liquidRpcWallet liquidCli)
  emit (.logPrintf "peerswap initialized")
  recv .recvQuitChan w.quitArrives
  -- `defer pollService.Stop()` runs when `run` returns
  emit .pollServiceStop

/-- The function `run`: its body, then the deferred `cancel()`, which runs when
`run` returns or panics and does not run while `run` is blocked. -/
def run (supportedAssets0 : List String) (w : World) : M Unit :=
  let body := runBody supportedAssets0 w
  match body.res with
  | .stop .blocked => body
  | _ => ⟨body.trace ++ [.cancel], body.res⟩

/-! ## Predicates on events and traces -/

/-- The computation `m` ends with a trace and a result that satisfy `Q`. -/
def M.Sat {α : Type} (m : M α) (Q : List Event → Res α → Prop) : Prop := Q m.trace m.res

/-- The events that `validateConfig`, `getBitcoinChain` and `getBitcoinClient`
can perform. -/
def isHelperEvent : Event → Bool
  | .logPrintf format => format != "peerswap initialized"
  | .ioutilReadFile _ => true
  | .getInfo => true
  | .listConfigs => true
  | .jsonMarshal => true
  | .jsonUnmarshal => true
  | .osStat _ => true
  | .osReadFile _ => true
  | .newBitcoin _ _ => true
  | .bitcoinSetTimeout _ => true
  | .bitcoinStartUp _ _ _ => true
  | _ => false

/-- A watcher construction carries the depth of its chain: 2 for the elements
RPC, 3 for the bitcoin RPC.  Every other event passes. -/
def depthOk : Event → Bool
  | .newBlockchainRpcTxWatcher .elementsCli d => d == 2
  | .newBlockchainRpcTxWatcher .bitcoinRpc d => d == 3
  | _ => true

/-- A poll service construction carries a tick of one hour and a removal time
of two hours.  Every other event passes. -/
def pollOk : Event → Bool
  | .pollNewService tick remove _ => tick == Hour && remove == 2 * Hour
  | _ => true

/-! ## `run` in two parts, and the events of each part -/

/-- A postcondition, kept closed until the path to it is fixed. -/
structure Post (p : Prop) : Prop where
  out : p

/-- The trace of `run` from the trace and the result of its body: the deferred
`cancel()` runs unless the body is blocked. -/
def withCancel (t : List Event) (r : Res Unit) : List Event :=
  if r = .stop .blocked then t else t ++ [.cancel]

/-- The local variables of `run` that are live after the check that an asset
is enabled. -/
structure Setup where
  supportedAssets : List String
  config : Config
  liquidOnChainService : Bool
  liquidTxWatcher : Option BlockchainRpcTxWatcher
  liquidRpcWallet : Option ElementsRpcWallet
  liquidCli : Option Elements
  bitcoinTxWatcher : Option BlockchainRpcTxWatcher
  bitcoinOnChainService : Bool
  bitcoinEnabled : Bool

/-- The first part of `runBody`, up to and with the check that an asset is
enabled; `runBody_eq` shows that `runBody` is `runSetup` followed by
`runServices`. -/
def runSetup (supportedAssets0 : List String) (w : World) : M Setup := do
  let mut supportedAssets := supportedAssets0
  call .newClightningClient w.newClightningClient
  call .registerOptions w.registerOptions
  call .registerMethods w.registerMethods
  emit .goPluginStart
  recv .recvInitChan w.initArrives
  emit (.logPrintf "waiting for init finished")
  let config ← callVal .getConfig w.getConfig
  let config ← validateConfig w config
  emit (.logPrintf "Config: Db:%s, Rpc: %s %s, network: %s")
  let mut liquidOnChainService : Bool := false
  let mut liquidTxWatcher : Option BlockchainRpcTxWatcher := none
  let mut liquidRpcWallet : Option ElementsRpcWallet := none
  let mut liquidCli : Option Elements := none
  if config.LiquidEnabled then
    supportedAssets := supportedAssets ++ ["l-btc"]
    emit (.logPrintf "Liquid swaps enabled")
    let cli : Elements := ⟨config.LiquidRpcUser, config.LiquidRpcPassword⟩
    emit (.newElements config.LiquidRpcUser config.LiquidRpcPassword)
    liquidCli := some cli
    call (.elementsStartUp cli config.LiquidRpcHost config.LiquidRpcPort) w.liquidCliStartUp
    let liquidWalletCli : Elements := ⟨config.LiquidRpcUser, config.LiquidRpcPassword⟩
    emit (.newElements config.LiquidRpcUser config.LiquidRpcPassword)
    call (.elementsStartUp liquidWalletCli config.LiquidRpcHost config.LiquidRpcPort)
      w.liquidWalletCliStartUp
    call (.newRpcWallet liquidWalletCli config.LiquidRpcWallet) w.newRpcWallet
    liquidRpcWallet := some ⟨liquidWalletCli, config.LiquidRpcWallet⟩
    emit (.newBlockchainRpcTxWatcher .elementsCli 2)
    liquidTxWatcher := some ⟨.elementsCli, 2⟩
    emit (.newLiquidOnChain config.LiquidNetwork)
    liquidOnChainService := true
  else
    emit (.logPrintf "Liquid swaps disabled")
  let chain ← getBitcoinChain w
  let bitcoinCli ← getBitcoinClient w
  let mut bitcoinTxWatcher : Option BlockchainRpcTxWatcher := none
  let mut bitcoinOnChainService : Bool := false
  let mut bitcoinEnabled : Bool := false
  if bitcoinCli.isSome then
    supportedAssets := supportedAssets ++ ["btc"]
    emit (.logPrintf "Bitcoin swaps enabled")
    bitcoinEnabled := true
    emit (.newBlockchainRpcTxWatcher .bitcoinRpc 3)
    bitcoinTxWatcher := some ⟨.bitcoinRpc, 3⟩
    emit (.newBitcoinOnChain chain)
    bitcoinOnChainService := true
  else
    emit (.logPrintf "Bitcoin swaps disabled")
  if !bitcoinEnabled && !config.LiquidEnabled then
    fail (.errorsNew "bad config, either liquid or bitcoin settings must be set")
  pure
    { supportedAssets, config, liquidOnChainService, liquidTxWatcher, liquidRpcWallet, liquidCli,
      bitcoinTxWatcher, bitcoinOnChainService, bitcoinEnabled }

/-- The second part of `runBody`, from the opening of the database on. -/
def runServices (w : World) (s : Setup) : M Unit := do
  call (.bboltOpen (w.filepathJoin [s.config.DbPath, "swaps"]) 0o700) w.bboltOpen
  call (.policyCreateFromFile s.config.PolicyPath) w.policyCreateFromFile
  emit (.logPrintf "using policy:\n%s")
  call .newBboltStore w.newBboltStore
  call .newRequestedSwapsStore w.newRequestedSwapsStore
  emit (.newSwapService s.config.LiquidEnabled s.liquidOnChainService
    s.bitcoinEnabled s.bitcoinOnChainService)
  if let some watcher := s.liquidTxWatcher then
    emit (.goStartWatchingTxs watcher)
  if let some watcher := s.bitcoinTxWatcher then
    emit (.goStartWatchingTxs watcher)
  call .swapServiceStart w.swapServiceStart
  call .swapServiceRecoverSwaps w.swapServiceRecoverSwaps
  call .pollNewStore w.pollNewStore
  emit (.pollNewService (1 * Hour) (2 * Hour) s.supportedAssets)
  emit .pollServiceStart
  emit .newRequestedSwapsPrinter
  emit (.setupClients s.liquidRpcWallet s.liquidCli)
  emit (.logPrintf "peerswap initialized")
  recv .recvQuitChan w.quitArrives
  emit .pollServiceStop

/-- The events that `runSetup` can perform; a watcher construction counts only
with the depth of its chain. -/
def isSetupEvent : Event → Bool
  | .logPrintf format => format != "peerswap initialized"
  | .newClightningClient => true
  | .registerOptions => true
  | .registerMethods => true
  | .goPluginStart => true
  | .recvInitChan => true
  | .getConfig => true
  | .newElements _ _ => true
  | .elementsStartUp _ _ _ => true
  | .newRpcWallet _ _ => true
  | .newBlockchainRpcTxWatcher rpc d => depthOk (.newBlockchainRpcTxWatcher rpc d)
  | .newLiquidOnChain _ => true
  | .newBitcoinOnChain _ => true
  | e => isHelperEvent e

/-- The events that `runServices` can perform; a poll service construction
counts only with a tick of one hour and a removal time of two hours. -/
def isServiceEvent : Event → Bool
  | .logPrintf _ => true
  | .bboltOpen _ _ => true
  | .policyCreateFromFile _ => true
  | .newBboltStore => true
  | .newRequestedSwapsStore => true
  | .newSwapService _ _ _ _ => true
  | .goStartWatchingTxs _ => true
  | .swapServiceStart => true
  | .swapServiceRecoverSwaps => true
  | .pollNewStore => true
  | .pollNewService tick remove assets => pollOk (.pollNewService tick remove assets)
  | .pollServiceStart => true
  | .pollServiceStop => true
  | .newRequestedSwapsPrinter => true
  | .setupClients _ _ => true
  | .recvQuitChan => true
  | _ => false

/-- The four calls of `run` that start the swap service and expose it. -/
inductive Lifecycle where
  | swapServiceStart
  | swapServiceRecoverSwaps
  | pollServiceStart
  | setupClients
deriving DecidableEq, Repr

/-- The lifecycle call an event stands for, if any. -/
def lifecycle : Event → Option Lifecycle
  | .swapServiceStart => some .swapServiceStart
  | .swapServiceRecoverSwaps => some .swapServiceRecoverSwaps
  | .pollServiceStart => some .pollServiceStart
  | .setupClients _ _ => some .setupClients
  | _ => none

/-! ## Sample worlds -/

def demoConfig : Config :=
  { DbPath := "/data/peerswap"
    PolicyPath := "/data/peerswap/policy.conf"
    LiquidRpcUser := "admin1"
    LiquidRpcPassword := "123"
    LiquidRpcPasswordFile := ""
    LiquidRpcHost := "http://localhost"
    LiquidRpcPort := 7041
    LiquidRpcWallet := "swap"
    LiquidNetworkString := "regtest"
    LiquidNetwork := none
    LiquidEnabled := false }

def demoBcli : ImportantPlugin :=
  { Path := "/usr/libexec/c-lightning/plugins/bcli"
    Name := "bcli"
    Options :=
      [("bitcoin-datadir", .str "/data/bitcoin"), ("bitcoin-rpcuser", .str "admin1"),
       ("bitcoin-rpcpassword", .str "123"), ("bitcoin-rpcport", .str "18443")] }

/-- A world in which every collaborator succeeds, with Liquid configured and
bitcoind reachable through user and password. -/
def demoWorld : World :=
  { newClightningClient := none
    registerOptions := none
    registerMethods := none
    initArrives := true
    getConfig := .ok demoConfig
    readPasswordFile := .ok "123\n"
    liquidCliStartUp := none
    liquidWalletCliStartUp := none
    newRpcWallet := none
    getInfoChain := .ok "regtest"
    listConfigs := none
    getInfoClient := .ok "regtest"
    jsonMarshal := none
    jsonUnmarshal := .ok (some ⟨[some demoBcli]⟩)
    cookieNotExist := true
    readCookieFile := .error "no such file"
    bitcoinStartUp := none
    bboltOpen := none
    policyCreateFromFile := none
    newBboltStore := none
    newRequestedSwapsStore := none
    swapServiceStart := none
    swapServiceRecoverSwaps := none
    pollNewStore := none
    quitArrives := true
    filepathJoin := fun parts => "/".intercalate parts
    strconvAtoi := fun s => if s = "18443" then .ok 18443 else .error "invalid syntax" }

/-- The world `demoWorld` with no Liquid user and no bitcoind settings in the
options of `bcli`. -/
def bareWorld : World :=
  { demoWorld with
    getConfig := .ok { demoConfig with LiquidRpcUser := "" }
    jsonUnmarshal := .ok (some ⟨[some { demoBcli with Options := [] }]⟩) }

/-- The world `demoWorld` on a regtest node whose `bcli` plugin has a bitcoin
data directory and no RPC user, so that the cookie file is used. -/
def cookieWorld : World :=
  { demoWorld with
    jsonUnmarshal :=
      .ok (some ⟨[some { demoBcli with Options := [("bitcoin-datadir", .str "/data/bitcoin")] }]⟩)
    cookieNotExist := false
    readCookieFile := .ok "__cookie__:0123abcd" }

/-- The world `demoWorld` with a swap service whose `Start` fails. -/
def startFailsWorld : World :=
  { demoWorld with swapServiceStart := some "bucket missing" }

/-- The world `demoWorld` with a swap service whose `RecoverSwaps` fails. -/
def recoverFailsWorld : World :=
  { demoWorld with swapServiceRecoverSwaps := some "bad swap record" }

/-! ## Reasoning about computations -/

section
variable {α β : Type}

theorem bind_eq (m : M α) (f : α → M β) : (m >>= f) = M.andThen m f := rfl

theorem sat_pure (a : α) (Q : List Event → Res α → Prop) :
    (pure a : M α).Sat Q ↔ Q [] (.ok a) := Iff.rfl

theorem sat_fail (e : GoError) (Q : List Event → Res α → Prop) :
    (fail e : M α).Sat Q ↔ Q [] (.err e) := Iff.rfl

theorem sat_halt (h : Halt) (Q : List Event → Res α → Prop) :
    (halt h : M α).Sat Q ↔ Q [] (.stop h) := Iff.rfl

theorem sat_emit (e : Event) (Q : List Event → Res Unit → Prop) :
    (emit e).Sat Q ↔ Q [e] (.ok ()) := Iff.rfl

theorem sat_bind (m : M α) (f : α → M β) (Q : List Event → Res β → Prop) :
    (m >>= f).Sat Q ↔
      (∀ a, m.res = .ok a → (f a).Sat (fun t r => Q (m.trace ++ t) r)) ∧
      (∀ e, m.res = .err e → Q m.trace (.err e)) ∧
      (∀ h, m.res = .stop h → Q m.trace (.stop h)) := by
  rcases m with ⟨t, r⟩
  cases r <;> simp [bind_eq, M.andThen, M.Sat]

theorem sat_pure_bind (a : α) (f : α → M β) (Q : List Event → Res β → Prop) :
    (pure a >>= f).Sat Q ↔ (f a).Sat Q := Iff.rfl

theorem sat_fail_bind (e : GoError) (f : α → M β) (Q : List Event → Res β → Prop) :
    ((fail e : M α) >>= f).Sat Q ↔ Q [] (.err e) := Iff.rfl

theorem sat_halt_bind (h : Halt) (f : α → M β) (Q : List Event → Res β → Prop) :
    ((halt h : M α) >>= f).Sat Q ↔ Q [] (.stop h) := Iff.rfl

theorem sat_emit_bind (e : Event) (f : Unit → M β) (Q : List Event → Res β → Prop) :
    (emit e >>= f).Sat Q ↔ (f ()).Sat (fun t r => Q (e :: t) r) := Iff.rfl

theorem sat_call_bind (e : Event) (ans : Option String) (f : Unit → M β)
    (Q : List Event → Res β → Prop) :
    (call e ans >>= f).Sat Q ↔
      (ans = none → (f ()).Sat (fun t r => Q (e :: t) r)) ∧
      (∀ err, ans = some err → Q [e] (.err (.collaborator err))) := by
  cases ans
  · exact ⟨fun h => ⟨fun _ => h, fun _ h' => (nomatch h')⟩, fun h => h.1 rfl⟩
  · exact ⟨fun h => ⟨fun h' => (nomatch h'), fun _ h' => (by cases h'; exact h)⟩,
      fun h => h.2 _ rfl⟩

theorem sat_call (e : Event) (ans : Option String) (Q : List Event → Res Unit → Prop) :
    (call e ans).Sat Q ↔
      (ans = none → Q [e] (.ok ())) ∧
      (∀ err, ans = some err → Q [e] (.err (.collaborator err))) := by
  cases ans
  · exact ⟨fun h => ⟨fun _ => h, fun _ h' => (nomatch h')⟩, fun h => h.1 rfl⟩
  · exact ⟨fun h => ⟨fun h' => (nomatch h'), fun _ h' => (by cases h'; exact h)⟩,
      fun h => h.2 _ rfl⟩

theorem sat_callVal_bind (e : Event) (ans : Except String α) (f : α → M β)
    (Q : List Event → Res β → Prop) :
    (callVal e ans >>= f).Sat Q ↔
      (∀ a, ans = .ok a → (f a).Sat (fun t r => Q (e :: t) r)) ∧
      (∀ err, ans = .error err → Q [e] (.err (.collaborator err))) := by
  cases ans
  · exact ⟨fun h => ⟨fun _ h' => (nomatch h'), fun _ h' => (by cases h'; exact h)⟩,
      fun h => h.2 _ rfl⟩
  · exact ⟨fun h => ⟨fun _ h' => (by cases h'; exact h), fun _ h' => (nomatch h')⟩,
      fun h => h.1 _ rfl⟩

theorem sat_recv_bind (e : Event) (arrives : Bool) (f : Unit → M β)
    (Q : List Event → Res β → Prop) :
    (recv e arrives >>= f).Sat Q ↔
      (arrives = true → (f ()).Sat (fun t r => Q (e :: t) r)) ∧
      (arrives = false → Q [e] (.stop .blocked)) := by
  cases arrives
  · exact ⟨fun h => ⟨fun h' => (nomatch h'), fun _ => h⟩, fun h => h.2 rfl⟩
  · exact ⟨fun h => ⟨fun _ => h, fun h' => (nomatch h')⟩, fun h => h.1 rfl⟩

theorem sat_ite (c : Prop) [Decidable c] (a b : M α) (Q : List Event → Res α → Prop) :
    (if c then a else b).Sat Q ↔ (c → a.Sat Q) ∧ (¬ c → b.Sat Q) := by
  split <;> simp [*]

end

/-! ## The helpers perform helper events only -/

theorem getBitcoinChain_helper (w : World) :
    (getBitcoinChain w).trace.all isHelperEvent = true := by
  show (getBitcoinChain w).Sat (fun t _ => t.all isHelperEvent = true)
  unfold getBitcoinChain
  simp only [sat_callVal_bind, sat_ite, sat_pure, sat_fail]
  simp [isHelperEvent]

theorem validateConfig_helper (w : World) (c : Config) :
    (validateConfig w c).trace.all isHelperEvent = true := by
  show (validateConfig w c).Sat (fun t _ => t.all isHelperEvent = true)
  unfold validateConfig
  simp only []
  repeat' first
    | simp only [sat_callVal_bind, sat_call_bind, sat_ite, sat_pure, sat_fail, sat_halt,
        sat_pure_bind, sat_emit_bind, sat_fail_bind, sat_halt_bind, sat_call, sat_emit]
    | refine And.intro ?_ ?_
    | split
    | intro _
  all_goals simp [isHelperEvent]

theorem findBcli_trace (l : List (Option ImportantPlugin)) (acc : Option ImportantPlugin) :
    (findBcli l acc).trace = [] := by
  induction l generalizing acc with
  | nil => rfl
  | cons v rest ih =>
    cases v with
    | none => rfl
    | some v => exact ih _

theorem findBcli_res (l : List (Option ImportantPlugin)) (acc : Option ImportantPlugin) :
    (∃ b, (findBcli l acc).res = .ok b) ∨ (findBcli l acc).res = .stop .panic := by
  induction l generalizing acc with
  | nil => exact Or.inl ⟨acc, rfl⟩
  | cons v rest ih =>
    cases v with
    | none => exact Or.inr rfl
    | some v => exact ih _

theorem sat_findBcli_bind {β : Type} (l : List (Option ImportantPlugin))
    (acc : Option ImportantPlugin) (f : Option ImportantPlugin → M β)
    (Q : List Event → Res β → Prop) :
    (findBcli l acc >>= f).Sat Q ↔
      (∀ a, (findBcli l acc).res = .ok a → (f a).Sat Q) ∧
      ((findBcli l acc).res = .stop .panic → Q [] (.stop .panic)) := by
  rw [sat_bind, findBcli_trace]
  rcases findBcli_res l acc with ⟨b, h⟩ | h <;> simp [h]

theorem getBitcoinClient_helper (w : World) :
    (getBitcoinClient w).trace.all isHelperEvent = true := by
  show (getBitcoinClient w).Sat (fun t _ => t.all isHelperEvent = true)
  unfold getBitcoinClient
  simp only []
  repeat' first
    | simp only [sat_callVal_bind, sat_call_bind, sat_ite, sat_pure, sat_fail, sat_halt,
        sat_pure_bind, sat_emit_bind, sat_fail_bind, sat_halt_bind, sat_call, sat_emit,
        sat_findBcli_bind]
    | refine And.intro ?_ ?_
    | split
    | intro _
  all_goals simp [isHelperEvent]

/-! ### `runBody` in two parts -/

theorem bind_assoc_M {α β γ : Type} (m : M α) (f : α → M β) (g : β → M γ) :
    (m >>= f) >>= g = m >>= fun a => f a >>= g := by
  rcases m with ⟨t, r⟩
  cases r with
  | ok a =>
    simp only [bind_eq, M.andThen]
    rcases f a with ⟨t', r'⟩
    cases r' <;> simp
  | err e => rfl
  | stop h => rfl

theorem pure_bind_M {α β : Type} (a : α) (f : α → M β) : (pure a : M α) >>= f = f a := rfl

theorem ite_bind_M {α β : Type} (c : Prop) [Decidable c] (a b : M α) (f : α → M β) :
    (if c then a else b) >>= f = if c then a >>= f else b >>= f := by
  split <;> rfl

theorem runBody_eq (sa : List String) (w : World) :
    runBody sa w = runSetup sa w >>= runServices w := by
  unfold runBody runSetup runServices
  simp only [bind_assoc_M, pure_bind_M, ite_bind_M]

theorem sat_run (sa : List String) (w : World) (Q : List Event → Res Unit → Prop) :
    (run sa w).Sat Q ↔
      (∀ s, (runSetup sa w).res = .ok s →
        (runServices w s).Sat
          (fun t r => Post (Q (withCancel ((runSetup sa w).trace ++ t) r) r))) ∧
      (∀ e, (runSetup sa w).res = .err e → Q ((runSetup sa w).trace ++ [.cancel]) (.err e)) ∧
      (∀ h, (runSetup sa w).res = .stop h →
        Q (withCancel (runSetup sa w).trace (.stop h)) (.stop h)) := by
  have key : (run sa w).Sat Q ↔
      (runBody sa w).Sat (fun t r => Q (withCancel t r) r) := by
    unfold run M.Sat withCancel
    simp only []
    split
    · next h' => simp [h']
    · next h' =>
      have : (runBody sa w).res ≠ .stop .blocked := fun h'' => h' h''
      simp [this]
  rw [key, runBody_eq, sat_bind]
  refine and_congr ?_ (and_congr ?_ Iff.rfl)
  · exact forall_congr' fun s => imp_congr_right fun _ => ⟨fun h => ⟨h⟩, fun h => h.out⟩
  · simp [withCancel]

/-! ### What the helpers return -/

theorem validateConfig_disabled (w : World) (c : Config) (h : c.LiquidRpcUser = "") :
    validateConfig w c = ⟨[], .ok { c with LiquidEnabled := false }⟩ := by
  unfold validateConfig
  simp only []
  simp [h]
  rfl

theorem validateConfig_enabled (w : World) (c : Config) (h : c.LiquidRpcUser ≠ "") :
    (∃ c', (validateConfig w c).res = .ok c' ∧ c'.LiquidEnabled = true) ∨
    (∃ msg, (validateConfig w c).res = .err (.collaborator msg)) := by
  show (validateConfig w c).Sat (fun _ r => (∃ c', r = .ok c' ∧ c'.LiquidEnabled = true) ∨
    (∃ msg, r = .err (.collaborator msg)))
  unfold validateConfig
  simp only []
  repeat' first
    | simp only [sat_callVal_bind, sat_call_bind, sat_ite, sat_pure, sat_fail, sat_halt,
        sat_pure_bind, sat_emit_bind, sat_fail_bind, sat_halt_bind, sat_call, sat_emit]
    | refine And.intro ?_ ?_
    | split
    | intro _
  all_goals simp_all

theorem sat_validateConfig_bind {β : Type} (w : World) (c : Config) (f : Config → M β)
    (Q : List Event → Res β → Prop) :
    (validateConfig w c >>= f).Sat Q ↔
      (c.LiquidRpcUser = "" →
        (validateConfig w c).res = .ok { c with LiquidEnabled := false } →
        (f { c with LiquidEnabled := false }).Sat Q) ∧
      (c.LiquidRpcUser ≠ "" → ∀ c', (validateConfig w c).res = .ok c' →
        c'.LiquidEnabled = true →
        (f c').Sat (fun t r => Q ((validateConfig w c).trace ++ t) r)) ∧
      (c.LiquidRpcUser ≠ "" → ∀ msg, (validateConfig w c).res = .err (.collaborator msg) →
        Q (validateConfig w c).trace (.err (.collaborator msg))) := by
  by_cases h : c.LiquidRpcUser = ""
  · have hv := validateConfig_disabled w c h
    rw [sat_bind, hv]
    simp [h]
  · rw [sat_bind]
    rcases validateConfig_enabled w c h with ⟨c', h1, h2⟩ | ⟨msg, h1⟩
    · simp [h, h1, h2]
    · simp [h, h1]

theorem getBitcoinChain_trace (w : World) : (getBitcoinChain w).trace = [.getInfo] := by
  unfold getBitcoinChain
  cases h : w.getInfoChain <;> simp only [bind_eq, M.andThen, callVal]
  split_ifs <;> rfl

theorem getBitcoinChain_res (w : World) :
    (∃ chain, (getBitcoinChain w).res = .ok chain) ∨
    (∃ msg, (getBitcoinChain w).res = .err (.collaborator msg)) ∨
    (getBitcoinChain w).res = .err (.errorsNew "unknown bitcoin network") := by
  unfold getBitcoinChain
  cases h : w.getInfoChain <;> simp only [bind_eq, M.andThen, callVal]
  · simp
  · split_ifs <;> simp [pure, M.ret, fail]

theorem sat_getBitcoinChain_bind {β : Type} (w : World) (f : ChainParams → M β)
    (Q : List Event → Res β → Prop) :
    (getBitcoinChain w >>= f).Sat Q ↔
      (∀ chain, (getBitcoinChain w).res = .ok chain →
        (f chain).Sat (fun t r => Q (.getInfo :: t) r)) ∧
      (∀ msg, (getBitcoinChain w).res = .err (.collaborator msg) →
        Q [.getInfo] (.err (.collaborator msg))) ∧
      ((getBitcoinChain w).res = .err (.errorsNew "unknown bitcoin network") →
        Q [.getInfo] (.err (.errorsNew "unknown bitcoin network"))) := by
  rw [sat_bind, getBitcoinChain_trace]
  rcases getBitcoinChain_res w with ⟨c, h⟩ | ⟨msg, h⟩ | h <;> simp [h]

theorem getBitcoinClient_res (w : World) :
    (∃ cli, (getBitcoinClient w).res = .ok cli) ∨
    (∃ msg, (getBitcoinClient w).res = .err (.collaborator msg)) ∨
    (getBitcoinClient w).res = .err (.errorsNew "bcli config not found") ∨
    (getBitcoinClient w).res = .stop .panic := by
  show (getBitcoinClient w).Sat (fun _ r => (∃ cli, r = .ok cli) ∨
    (∃ msg, r = .err (.collaborator msg)) ∨ r = .err (.errorsNew "bcli config not found") ∨
    r = .stop .panic)
  unfold getBitcoinClient
  simp only []
  repeat' first
    | simp only [sat_callVal_bind, sat_call_bind, sat_ite, sat_pure, sat_fail, sat_halt,
        sat_pure_bind, sat_emit_bind, sat_fail_bind, sat_halt_bind, sat_call, sat_emit,
        sat_findBcli_bind]
    | refine And.intro ?_ ?_
    | split
    | intro _
  all_goals simp

theorem sat_getBitcoinClient_bind {β : Type} (w : World) (f : Option Bitcoin → M β)
    (Q : List Event → Res β → Prop) :
    (getBitcoinClient w >>= f).Sat Q ↔
      (∀ cli, (getBitcoinClient w).res = .ok (some cli) →
        (f (some cli)).Sat (fun t r => Q ((getBitcoinClient w).trace ++ t) r)) ∧
      ((getBitcoinClient w).res = .ok none →
        (f none).Sat (fun t r => Q ((getBitcoinClient w).trace ++ t) r)) ∧
      (∀ msg, (getBitcoinClient w).res = .err (.collaborator msg) →
        Q (getBitcoinClient w).trace (.err (.collaborator msg))) ∧
      ((getBitcoinClient w).res = .err (.errorsNew "bcli config not found") →
        Q (getBitcoinClient w).trace (.err (.errorsNew "bcli config not found"))) ∧
      ((getBitcoinClient w).res = .stop .panic →
        Q (getBitcoinClient w).trace (.stop .panic)) := by
  rw [sat_bind]
  rcases getBitcoinClient_res w with ⟨c, h⟩ | ⟨msg, h⟩ | h | h
  · cases c <;> simp [h]
  · simp [h]
  · simp [h]
  · simp [h]



/-! ### The first part of `run` -/

theorem not_mem_of_helper (t : List Event) (ht : t.all isHelperEvent = true) (e : Event)
    (he : isHelperEvent e = false) : e ∉ t := by
  intro hmem
  have := List.all_eq_true.1 ht e hmem
  rw [he] at this
  cases this

theorem helper_all (p : Event → Bool) (hp : ∀ e, isHelperEvent e = true → p e = true)
    (t : List Event) (ht : t.all isHelperEvent = true) : t.all p = true := by
  rw [List.all_eq_true] at ht ⊢
  exact fun e he => hp e (ht e he)

theorem setup_of_helper (e : Event) (h : isHelperEvent e = true) : isSetupEvent e = true := by
  cases e <;> simp_all [isHelperEvent, isSetupEvent]

theorem runSetup_events (sa : List String) (w : World) :
    (runSetup sa w).trace.all isSetupEvent = true := by
  have h1 := fun c => helper_all isSetupEvent setup_of_helper _ (validateConfig_helper w c)
  have h2 := helper_all isSetupEvent setup_of_helper _ (getBitcoinChain_helper w)
  have h3 := helper_all isSetupEvent setup_of_helper _ (getBitcoinClient_helper w)
  show (runSetup sa w).Sat (fun t _ => t.all isSetupEvent = true)
  unfold runSetup
  simp only []
  simp only [sat_callVal_bind, sat_call_bind, sat_ite, sat_pure, sat_fail, sat_halt,
    sat_pure_bind, sat_emit_bind, sat_fail_bind, sat_halt_bind, sat_call, sat_emit,
    sat_recv_bind,
    sat_bind (validateConfig _ _), sat_bind (getBitcoinChain _), sat_bind (getBitcoinClient _)]
  simp [h1, h2, h3, isSetupEvent, depthOk, isHelperEvent]

set_option linter.unusedTactic false in
theorem runSetup_ok (sa : List String) (w : World) (s : Setup)
    (h : (runSetup sa w).res = .ok s) :
    ∃ cfg cli, w.getConfig = .ok cfg ∧ (validateConfig w cfg).res = .ok s.config ∧
      (getBitcoinClient w).res = .ok cli ∧
      s.supportedAssets = sa ++ (if s.config.LiquidEnabled = true then ["l-btc"] else []) ++
        (if cli.isSome = true then ["btc"] else []) := by
  revert s
  suffices h : (runSetup sa w).Sat (fun _ r => Post (∀ s, r = .ok s →
      ∃ cfg cli, w.getConfig = .ok cfg ∧ (validateConfig w cfg).res = .ok s.config ∧
        (getBitcoinClient w).res = .ok cli ∧
        s.supportedAssets = sa ++ (if s.config.LiquidEnabled = true then ["l-btc"] else []) ++
          (if cli.isSome = true then ["btc"] else []))) from h.out
  unfold runSetup
  simp only []
  simp only [sat_callVal_bind, sat_call_bind, sat_ite, sat_pure, sat_fail, sat_halt,
    sat_pure_bind, sat_emit_bind, sat_fail_bind, sat_halt_bind, sat_call, sat_emit,
    sat_recv_bind, sat_validateConfig_bind, sat_getBitcoinChain_bind, sat_getBitcoinClient_bind,
    Option.isSome_some, Option.isSome_none, Bool.false_eq_true, false_implies, true_implies,
    not_false_eq_true, not_true_eq_false, and_true, true_and, Bool.not_true, Bool.not_false,
    Bool.false_and, Bool.true_and, Bool.not_eq_true', implies_true]
  repeat' first
    | refine And.intro ?_ ?_
    | intro _
  all_goals first
    | contradiction
    | (refine Post.mk ?_; simp [*]; done)


set_option linter.unusedTactic false in
theorem runSetup_err (sa : List String) (w : World) :
    (∀ cfg, w.getConfig = .ok cfg → Event.getConfig ∈ (runSetup sa w).trace →
      cfg.LiquidRpcUser = "" →
      (∃ chain, (getBitcoinChain w).res = .ok chain) → (getBitcoinClient w).res = .ok none →
      (runSetup sa w).res =
        .err (.errorsNew "bad config, either liquid or bitcoin settings must be set")) ∧
    ((runSetup sa w).res =
        .err (.errorsNew "bad config, either liquid or bitcoin settings must be set") →
      ∃ cfg cfg', w.getConfig = .ok cfg ∧ (validateConfig w cfg).res = .ok cfg' ∧
        cfg'.LiquidEnabled = false ∧ (getBitcoinClient w).res = .ok none) := by
  suffices h : (runSetup sa w).Sat (fun t r => Post (
      (∀ cfg, w.getConfig = .ok cfg → Event.getConfig ∈ t → cfg.LiquidRpcUser = "" →
        (∃ chain, (getBitcoinChain w).res = .ok chain) → (getBitcoinClient w).res = .ok none →
        r = .err (.errorsNew "bad config, either liquid or bitcoin settings must be set")) ∧
      (r = .err (.errorsNew "bad config, either liquid or bitcoin settings must be set") →
        ∃ cfg cfg', w.getConfig = .ok cfg ∧ (validateConfig w cfg).res = .ok cfg' ∧
          cfg'.LiquidEnabled = false ∧ (getBitcoinClient w).res = .ok none))) from h.out
  have g1 := fun c => not_mem_of_helper _ (validateConfig_helper w c) .getConfig rfl
  have g3 := not_mem_of_helper _ (getBitcoinClient_helper w) .getConfig rfl
  unfold runSetup
  simp only []
  simp only [sat_callVal_bind, sat_call_bind, sat_ite, sat_pure, sat_fail, sat_halt,
    sat_pure_bind, sat_emit_bind, sat_fail_bind, sat_halt_bind, sat_call, sat_emit,
    sat_recv_bind, sat_validateConfig_bind, sat_getBitcoinChain_bind, sat_getBitcoinClient_bind,
    Option.isSome_some, Option.isSome_none, Bool.false_eq_true, false_implies, true_implies,
    not_false_eq_true, not_true_eq_false, and_true, true_and, Bool.not_true, Bool.not_false,
    Bool.false_and, Bool.true_and, Bool.not_eq_true', implies_true]
  repeat' first
    | refine And.intro ?_ ?_
    | intro _
  all_goals first
    | contradiction
    | (refine Post.mk ?_; simp [*]; done)
    | (refine Post.mk ?_; simp_all; done)

/-! ### `run` from its two parts -/

theorem run_of_setup_ok (sa : List String) (w : World) (s : Setup)
    (h : (runSetup sa w).res = .ok s) :
    (run sa w).trace =
        withCancel ((runSetup sa w).trace ++ (runServices w s).trace) (runServices w s).res ∧
      (run sa w).res = (runServices w s).res := by
  have := (sat_run sa w (fun t r => t =
    withCancel ((runSetup sa w).trace ++ (runServices w s).trace) (runServices w s).res ∧
      r = (runServices w s).res))
  refine this.2 ⟨fun s' hs' => ?_, fun e he => ?_, fun x hx => ?_⟩
  · rw [h] at hs'; cases hs'; exact ⟨⟨rfl, rfl⟩⟩
  · rw [h] at he; cases he
  · rw [h] at hx; cases hx

theorem run_of_setup_err (sa : List String) (w : World) (e : GoError)
    (h : (runSetup sa w).res = .err e) :
    (run sa w).trace = (runSetup sa w).trace ++ [.cancel] ∧ (run sa w).res = .err e := by
  have := (sat_run sa w (fun t r => t = (runSetup sa w).trace ++ [.cancel] ∧ r = .err e))
  refine this.2 ⟨fun s' hs' => ?_, fun e' he => ?_, fun x hx => ?_⟩
  · rw [h] at hs'; cases hs'
  · rw [h] at he; cases he; exact ⟨rfl, rfl⟩
  · rw [h] at hx; cases hx

theorem run_of_setup_stop (sa : List String) (w : World) (x : Halt)
    (h : (runSetup sa w).res = .stop x) :
    (run sa w).trace = withCancel (runSetup sa w).trace (.stop x) ∧
      (run sa w).res = .stop x := by
  have := (sat_run sa w (fun t r => t = withCancel (runSetup sa w).trace (.stop x) ∧
    r = .stop x))
  refine this.2 ⟨fun s' hs' => ?_, fun e' he => ?_, fun x' hx => ?_⟩
  · rw [h] at hs'; cases hs'
  · rw [h] at he; cases he
  · rw [h] at hx; cases hx; exact ⟨rfl, rfl⟩

theorem mem_withCancel (e : Event) (t : List Event) (r : Res Unit)
    (h : e ∈ withCancel t r) : e ∈ t ∨ e = .cancel := by
  unfold withCancel at h
  split at h
  · exact Or.inl h
  · simpa using h

theorem filterMap_withCancel (t : List Event) (r : Res Unit) :
    (withCancel t r).filterMap lifecycle = t.filterMap lifecycle := by
  unfold withCancel
  split <;> simp [lifecycle]

/-! ### The second part of `run` -/

theorem runServices_events (w : World) (s : Setup) :
    (runServices w s).trace.all isServiceEvent = true := by
  show (runServices w s).Sat (fun t _ => t.all isServiceEvent = true)
  rcases s with ⟨sa, cfg, lo, lw, lrw, lc, bw, bo, be⟩
  unfold runServices
  cases lw <;> cases bw <;>
  simp only [sat_callVal_bind, sat_call_bind, sat_ite, sat_pure, sat_fail, sat_halt,
    sat_pure_bind, sat_emit_bind, sat_fail_bind, sat_halt_bind, sat_call, sat_emit,
    sat_recv_bind] <;>
  simp [isServiceEvent, pollOk]

theorem runServices_res (w : World) (s : Setup) (msg : String) :
    (runServices w s).res ≠ .err (.errorsNew msg) := by
  show (runServices w s).Sat (fun _ r => r ≠ .err (.errorsNew msg))
  rcases s with ⟨sa, cfg, lo, lw, lrw, lc, bw, bo, be⟩
  unfold runServices
  cases lw <;> cases bw <;>
  simp only [sat_callVal_bind, sat_call_bind, sat_ite, sat_pure, sat_fail, sat_halt,
    sat_pure_bind, sat_emit_bind, sat_fail_bind, sat_halt_bind, sat_call, sat_emit,
    sat_recv_bind] <;>
  simp

theorem runServices_assets (w : World) (s : Setup) (tick remove : Duration)
    (assets : List String)
    (h : Event.pollNewService tick remove assets ∈ (runServices w s).trace) :
    assets = s.supportedAssets := by
  revert h
  show (runServices w s).Sat (fun t _ =>
    Event.pollNewService tick remove assets ∈ t → assets = s.supportedAssets)
  rcases s with ⟨sa, cfg, lo, lw, lrw, lc, bw, bo, be⟩
  unfold runServices
  cases lw <;> cases bw <;>
  simp only [sat_callVal_bind, sat_call_bind, sat_ite, sat_pure, sat_fail, sat_halt,
    sat_pure_bind, sat_emit_bind, sat_fail_bind, sat_halt_bind, sat_call, sat_emit,
    sat_recv_bind] <;>
  simp

theorem runServices_lifecycle (w : World) (s : Setup) :
    (runServices w s).Sat (fun t r =>
      (Event.logPrintf "peerswap initialized" ∈ t →
        t.filterMap lifecycle =
          [.swapServiceStart, .swapServiceRecoverSwaps, .pollServiceStart, .setupClients]) ∧
      (∀ msg, Event.swapServiceStart ∈ t → w.swapServiceStart = some msg →
        r = .err (.collaborator msg) ∧ t.filterMap lifecycle = [.swapServiceStart]) ∧
      (∀ msg, Event.swapServiceRecoverSwaps ∈ t → w.swapServiceRecoverSwaps = some msg →
        r = .err (.collaborator msg) ∧
        t.filterMap lifecycle = [.swapServiceStart, .swapServiceRecoverSwaps]) ∧
      t.filterMap lifecycle <+:
        [.swapServiceStart, .swapServiceRecoverSwaps, .pollServiceStart, .setupClients]) := by
  rcases s with ⟨sa, cfg, lo, lw, lrw, lc, bw, bo, be⟩
  unfold runServices
  cases lw <;> cases bw <;>
  simp only [sat_callVal_bind, sat_call_bind, sat_ite, sat_pure, sat_fail, sat_halt,
    sat_pure_bind, sat_emit_bind, sat_fail_bind, sat_halt_bind, sat_call, sat_emit,
    sat_recv_bind] <;>
  simp +contextual [lifecycle]

/-! ### Events of `run` -/

theorem mem_run_trace (sa : List String) (w : World) (e : Event)
    (h : e ∈ (run sa w).trace) :
    e ∈ (runSetup sa w).trace ∨ e = .cancel ∨
      ∃ s, (runSetup sa w).res = .ok s ∧ e ∈ (runServices w s).trace := by
  cases hres : (runSetup sa w).res with
  | ok s =>
    rw [(run_of_setup_ok sa w s hres).1] at h
    rcases mem_withCancel _ _ _ h with h | h
    · rcases List.mem_append.1 h with h | h
      · exact Or.inl h
      · exact Or.inr (Or.inr ⟨s, rfl, h⟩)
    · exact Or.inr (Or.inl h)
  | err x =>
    rw [(run_of_setup_err sa w x hres).1] at h
    rcases List.mem_append.1 h with h | h
    · exact Or.inl h
    · exact Or.inr (Or.inl (by simpa using h))
  | stop x =>
    rw [(run_of_setup_stop sa w x hres).1] at h
    rcases mem_withCancel _ _ _ h with h | h
    · exact Or.inl h
    · exact Or.inr (Or.inl h)

theorem run_event (p : Event → Bool) (h1 : ∀ e, isSetupEvent e = true → p e = true)
    (h2 : ∀ e, isServiceEvent e = true → p e = true) (hc : p .cancel = true)
    (sa : List String) (w : World) (e : Event) (h : e ∈ (run sa w).trace) : p e = true := by
  rcases mem_run_trace sa w e h with h | h | ⟨s, _, h⟩
  · exact h1 e (List.all_eq_true.1 (runSetup_events sa w) e h)
  · rw [h]; exact hc
  · exact h2 e (List.all_eq_true.1 (runServices_events w s) e h)

theorem not_mem_setup (sa : List String) (w : World) (e : Event)
    (he : isSetupEvent e = false) : e ∉ (runSetup sa w).trace := by
  intro hmem
  have := List.all_eq_true.1 (runSetup_events sa w) e hmem
  rw [he] at this
  cases this

theorem not_mem_services (w : World) (s : Setup) (e : Event)
    (he : isServiceEvent e = false) : e ∉ (runServices w s).trace := by
  intro hmem
  have := List.all_eq_true.1 (runServices_events w s) e hmem
  rw [he] at this
  cases this

theorem lifecycle_setup (sa : List String) (w : World) :
    (runSetup sa w).trace.filterMap lifecycle = [] := by
  rw [List.filterMap_eq_nil_iff]
  intro e he
  have := List.all_eq_true.1 (runSetup_events sa w) e he
  cases e <;> simp_all [isSetupEvent, isHelperEvent, lifecycle]

/-- C1: whenever `run` constructs the Liquid watcher (the one over the elements
RPC) its required depth is 2, and whenever it constructs the Bitcoin watcher
(the one over the bitcoin RPC) its required depth is 3, for every starting
value of `supportedAssets` and every answer of the collaborators. -/
theorem run_watcher_depth (sa : List String) (w : World) (rpc : ChainRpc) (d : Nat)
    (h : Event.newBlockchainRpcTxWatcher rpc d ∈ (run sa w).trace) :
    (rpc = .elementsCli → d = 2) ∧ (rpc = .bitcoinRpc → d = 3) := by
  have h1 : ∀ e, isSetupEvent e = true → depthOk e = true := by
    intro e; cases e <;> simp [isSetupEvent, depthOk]
  have h2 : ∀ e, isServiceEvent e = true → depthOk e = true := by
    intro e; cases e <;> simp [isServiceEvent, depthOk]
  have := run_event depthOk h1 h2 rfl sa w _ h
  cases rpc <;> simpa [depthOk] using this

theorem run_watcher_depth_witness :
    (Event.newBlockchainRpcTxWatcher .elementsCli 2 ∈ (run [] demoWorld).trace ∧
      ((ChainRpc.elementsCli = .elementsCli → 2 = 2) ∧
        (ChainRpc.elementsCli = .bitcoinRpc → 2 = 3))) ∧
    (Event.newBlockchainRpcTxWatcher .bitcoinRpc 3 ∈ (run [] demoWorld).trace ∧
      ((ChainRpc.bitcoinRpc = .elementsCli → 3 = 2) ∧
        (ChainRpc.bitcoinRpc = .bitcoinRpc → 3 = 3))) :=
  ⟨⟨by decide, run_watcher_depth [] demoWorld .elementsCli 2 (by decide)⟩,
    ⟨by decide, run_watcher_depth [] demoWorld .bitcoinRpc 3 (by decide)⟩⟩

/-- C2: whenever `run` constructs the Poll Service, the poll interval is exactly
one hour and the expiry of a peer record is exactly two hours, twice the poll
interval (an hour being 3600000000000 nanoseconds). -/
theorem run_poll_durations (sa : List String) (w : World) (tick remove : Duration)
    (assets : List String)
    (h : Event.pollNewService tick remove assets ∈ (run sa w).trace) :
    tick = Hour ∧ remove = 2 * Hour ∧ remove = 2 * tick ∧ tick = 3600000000000 := by
  have h1 : ∀ e, isSetupEvent e = true → pollOk e = true := by
    intro e; cases e <;> simp [isSetupEvent, isHelperEvent, pollOk]
  have h2 : ∀ e, isServiceEvent e = true → pollOk e = true := by
    intro e; cases e <;> simp [isServiceEvent, pollOk]
  have := run_event pollOk h1 h2 rfl sa w _ h
  simp only [pollOk, Bool.and_eq_true, beq_iff_eq] at this
  obtain ⟨h1, h2⟩ := this
  subst h1 h2
  exact ⟨rfl, rfl, rfl, by decide⟩

theorem run_poll_durations_witness :
    Event.pollNewService Hour (2 * Hour) ["l-btc", "btc"] ∈ (run [] demoWorld).trace ∧
    (Hour = Hour ∧ 2 * Hour = 2 * Hour ∧ 2 * Hour = 2 * Hour ∧ Hour = 3600000000000) :=
  ⟨by decide, run_poll_durations [] demoWorld Hour (2 * Hour) ["l-btc", "btc"] (by decide)⟩

/-- C3: starting from the empty `supportedAssets`, the list that `run` hands to
the Poll Service holds "l-btc" exactly when Liquid is enabled (`LiquidEnabled`
of the config after `validateConfig`), holds "btc" exactly when
`getBitcoinClient` returned a client, holds nothing else, holds no entry twice,
and has "l-btc" before "btc" when both are there. -/
theorem run_supported_assets (w : World) (cfg cfg' : Config) (cli : Option Bitcoin)
    (tick remove : Duration) (assets : List String)
    (hcfg : w.getConfig = .ok cfg)
    (hval : (validateConfig w cfg).res = .ok cfg')
    (hcli : (getBitcoinClient w).res = .ok cli)
    (h : Event.pollNewService tick remove assets ∈ (run [] w).trace) :
    ("l-btc" ∈ assets ↔ cfg'.LiquidEnabled = true) ∧
    ("btc" ∈ assets ↔ cli ≠ none) ∧
    (∀ a ∈ assets, a = "l-btc" ∨ a = "btc") ∧
    assets.Nodup ∧
    ("l-btc" ∈ assets → "btc" ∈ assets → assets = ["l-btc", "btc"]) := by
  rcases mem_run_trace [] w _ h with h | h | ⟨s, hs, h⟩
  · exact absurd h (not_mem_setup [] w _ rfl)
  · cases h
  · have ha := runServices_assets w s tick remove assets h
    obtain ⟨cfg0, cli0, h1, h2, h3, h4⟩ := runSetup_ok [] w s hs
    rw [hcfg] at h1
    cases h1
    rw [hval] at h2
    cases h2
    rw [hcli] at h3
    cases h3
    rw [ha, h4]
    cases hle : s.config.LiquidEnabled <;> cases cli <;> simp

theorem run_supported_assets_witness :
    ("l-btc" ∈ ["l-btc", "btc"] ↔
      ({ demoConfig with LiquidEnabled := true, LiquidNetwork := some .Regtest } :
        Config).LiquidEnabled = true) ∧
    ("btc" ∈ ["l-btc", "btc"] ↔ (some (⟨"admin1", "123"⟩ : Bitcoin)) ≠ none) ∧
    (∀ a ∈ ["l-btc", "btc"], a = "l-btc" ∨ a = "btc") ∧
    ["l-btc", "btc"].Nodup ∧
    ("l-btc" ∈ ["l-btc", "btc"] → "btc" ∈ ["l-btc", "btc"] →
      ["l-btc", "btc"] = ["l-btc", "btc"]) :=
  run_supported_assets demoWorld demoConfig
    { demoConfig with LiquidEnabled := true, LiquidNetwork := some .Regtest }
    (some ⟨"admin1", "123"⟩) Hour (2 * Hour) ["l-btc", "btc"] rfl (by decide) (by decide)
    (by decide)


/-- C4: when `run` has obtained a config whose `LiquidRpcUser` is empty (the
call `GetConfig` was reached and returned it), `getBitcoinChain` succeeds and
`getBitcoinClient` returns no client and no error, `run` returns the error "bad config, either liquid or bitcoin settings
must be set" and has not opened the swap database, loaded the policy,
constructed the Swap Service or started a watcher; and `run` returns that
error only when Liquid is disabled after `validateConfig` and
`getBitcoinClient` returned no client. -/
theorem run_bad_config (sa : List String) (w : World) :
    (∀ cfg, w.getConfig = .ok cfg → Event.getConfig ∈ (run sa w).trace →
      cfg.LiquidRpcUser = "" →
      (∃ chain, (getBitcoinChain w).res = .ok chain) →
      (getBitcoinClient w).res = .ok none →
      (run sa w).res =
          .err (.errorsNew "bad config, either liquid or bitcoin settings must be set") ∧
        (∀ path mode, Event.bboltOpen path mode ∉ (run sa w).trace) ∧
        (∀ path, Event.policyCreateFromFile path ∉ (run sa w).trace) ∧
        (∀ le lo be bo, Event.newSwapService le lo be bo ∉ (run sa w).trace) ∧
        (∀ watcher, Event.goStartWatchingTxs watcher ∉ (run sa w).trace)) ∧
    ((run sa w).res =
        .err (.errorsNew "bad config, either liquid or bitcoin settings must be set") →
      ∃ cfg cfg', w.getConfig = .ok cfg ∧ (validateConfig w cfg).res = .ok cfg' ∧
        cfg'.LiquidEnabled = false ∧ (getBitcoinClient w).res = .ok none) := by
  constructor
  · intro cfg hcfg hmem huser hchain hcli
    have hmem' : Event.getConfig ∈ (runSetup sa w).trace := by
      rcases mem_run_trace sa w _ hmem with h | h | ⟨s, _, h⟩
      · exact h
      · cases h
      · exact absurd h (not_mem_services w s _ rfl)
    have hres := (runSetup_err sa w).1 cfg hcfg hmem' huser hchain hcli
    obtain ⟨ht, hr⟩ := run_of_setup_err sa w _ hres
    refine ⟨hr, ?_, ?_, ?_, ?_⟩ <;> intros <;> rw [ht] <;>
      simp only [List.mem_append, List.mem_singleton, reduceCtorEq, or_false] <;>
      exact not_mem_setup sa w _ rfl
  · intro hr
    cases hres : (runSetup sa w).res with
    | ok s =>
      rw [(run_of_setup_ok sa w s hres).2] at hr
      exact absurd hr (runServices_res w s _)
    | err x =>
      rw [(run_of_setup_err sa w x hres).2] at hr
      cases hr
      exact (runSetup_err sa w).2 hres
    | stop x =>
      rw [(run_of_setup_stop sa w x hres).2] at hr
      cases hr

theorem run_bad_config_witness :
    ((run [] bareWorld).res =
        .err (.errorsNew "bad config, either liquid or bitcoin settings must be set") ∧
      (∀ path mode, Event.bboltOpen path mode ∉ (run [] bareWorld).trace) ∧
      (∀ path, Event.policyCreateFromFile path ∉ (run [] bareWorld).trace) ∧
      (∀ le lo be bo, Event.newSwapService le lo be bo ∉ (run [] bareWorld).trace) ∧
      (∀ watcher, Event.goStartWatchingTxs watcher ∉ (run [] bareWorld).trace)) ∧
    (∃ cfg cfg', bareWorld.getConfig = .ok cfg ∧
      (validateConfig bareWorld cfg).res = .ok cfg' ∧
      cfg'.LiquidEnabled = false ∧ (getBitcoinClient bareWorld).res = .ok none) :=
  ⟨(run_bad_config [] bareWorld).1 { demoConfig with LiquidRpcUser := "" } rfl (by decide) rfl
      ⟨.RegressionNetParams, by decide⟩ (by decide),
    (run_bad_config [] bareWorld).2 (by decide)⟩

/-- C5: in every execution of `run` that logs "peerswap initialized", the calls
`swapService.Start`, `swapService.RecoverSwaps`, `pollService.Start` and
`SetupClients` have each been made exactly once and in this order; if `Start`
returns an error, `run` returns that error and makes none of the other three
calls; if `RecoverSwaps` returns an error, `run` returns that error and makes
neither of the later two calls; and in every execution the calls made are an
initial part of that sequence. -/
theorem run_recovery_order (sa : List String) (w : World) :
    (Event.logPrintf "peerswap initialized" ∈ (run sa w).trace →
      (run sa w).trace.filterMap lifecycle =
        [.swapServiceStart, .swapServiceRecoverSwaps, .pollServiceStart, .setupClients]) ∧
    (∀ msg, Event.swapServiceStart ∈ (run sa w).trace → w.swapServiceStart = some msg →
      (run sa w).res = .err (.collaborator msg) ∧
      (run sa w).trace.filterMap lifecycle = [.swapServiceStart]) ∧
    (∀ msg, Event.swapServiceRecoverSwaps ∈ (run sa w).trace →
      w.swapServiceRecoverSwaps = some msg →
      (run sa w).res = .err (.collaborator msg) ∧
      (run sa w).trace.filterMap lifecycle = [.swapServiceStart, .swapServiceRecoverSwaps]) ∧
    (run sa w).trace.filterMap lifecycle <+:
      [.swapServiceStart, .swapServiceRecoverSwaps, .pollServiceStart, .setupClients] := by
  have hT := lifecycle_setup sa w
  have hi := not_mem_setup sa w (.logPrintf "peerswap initialized") (by decide)
  have hs := not_mem_setup sa w .swapServiceStart rfl
  have hr := not_mem_setup sa w .swapServiceRecoverSwaps rfl
  cases hres : (runSetup sa w).res with
  | ok s =>
    obtain ⟨ht, hres'⟩ := run_of_setup_ok sa w s hres
    have key := runServices_lifecycle w s
    unfold M.Sat at key
    obtain ⟨k1, k2, k3, k4⟩ := key
    have hf : (run sa w).trace.filterMap lifecycle =
        (runServices w s).trace.filterMap lifecycle := by
      rw [ht, filterMap_withCancel, List.filterMap_append, hT, List.nil_append]
    have hm : ∀ e, e ≠ Event.cancel → e ∉ (runSetup sa w).trace → e ∈ (run sa w).trace →
        e ∈ (runServices w s).trace := by
      intro e he1 he2 he
      rw [ht] at he
      rcases mem_withCancel _ _ _ he with he | he
      · rcases List.mem_append.1 he with he | he
        · exact absurd he he2
        · exact he
      · exact absurd he he1
    rw [hf, hres']
    exact ⟨fun h => k1 (hm _ (by simp) hi h), fun msg h => k2 msg (hm _ (by simp) hs h),
      fun msg h => k3 msg (hm _ (by simp) hr h), k4⟩
  | err x =>
    obtain ⟨ht, -⟩ := run_of_setup_err sa w x hres
    rw [ht]
    simp [hT, hi, hs, hr, lifecycle]
  | stop x =>
    obtain ⟨ht, -⟩ := run_of_setup_stop sa w x hres
    rw [ht, filterMap_withCancel, hT]
    refine ⟨fun h => ?_, fun _ h => ?_, fun _ h => ?_, List.nil_prefix⟩ <;>
      rcases mem_withCancel _ _ _ h with h | h <;> contradiction

theorem run_recovery_order_witness :
    (run [] demoWorld).trace.filterMap lifecycle =
      [.swapServiceStart, .swapServiceRecoverSwaps, .pollServiceStart, .setupClients] ∧
    ((run [] startFailsWorld).res = .err (.collaborator "bucket missing") ∧
      (run [] startFailsWorld).trace.filterMap lifecycle = [.swapServiceStart]) ∧
    ((run [] recoverFailsWorld).res = .err (.collaborator "bad swap record") ∧
      (run [] recoverFailsWorld).trace.filterMap lifecycle =
        [.swapServiceStart, .swapServiceRecoverSwaps]) :=
  ⟨(run_recovery_order [] demoWorld).1 (by decide),
    (run_recovery_order [] startFailsWorld).2.1 "bucket missing" (by decide) rfl,
    (run_recovery_order [] recoverFailsWorld).2.2.1 "bad swap record" (by decide) rfl⟩

/-! ## `getNetworkPort` and `getBitcoinChain` -/

/-- C6: for the network name "regtest" `getNetworkPort` returns 18332, the port
of testnet, and not 18443, the standard RPC port of a regtest bitcoind, and
this is the port the cookie branch of `getBitcoinClient` connects to on a
regtest node; the names "testnet" and "signet" get 18332 and 38332 and a name
such as "bitcoin" gets 8332. -/
theorem getNetworkPort_regtest :
    getNetworkPort "regtest" = 18332 ∧ getNetworkPort "regtest" ≠ 18443 ∧
    Event.bitcoinStartUp "http://127.0.0.1" "" 18332 ∈ (getBitcoinClient cookieWorld).trace ∧
    (getBitcoinClient cookieWorld).res = .ok (some ⟨"__cookie__", "0123abcd"⟩) ∧
    getNetworkPort "testnet" = 18332 ∧ getNetworkPort "signet" = 38332 ∧
    getNetworkPort "bitcoin" = 8332 := by
  decide

/-- C7: when `GetInfo` succeeds with network name `name`, `getBitcoinChain`
returns the error "unknown bitcoin network" exactly when `name` is none of
"regtest", "testnet", "signet", "bitcoin" (compared as strings, so case
matters), it returns chain parameters exactly when `name` is one of the four,
and the four names give RegressionNet, TestNet3, SigNet and MainNet. -/
theorem getBitcoinChain_network (w : World) (name : String)
    (h : w.getInfoChain = .ok name) :
    ((getBitcoinChain w).res = .err (.errorsNew "unknown bitcoin network") ↔
      name ∉ ["regtest", "testnet", "signet", "bitcoin"]) ∧
    ((∃ params, (getBitcoinChain w).res = .ok params) ↔
      name ∈ ["regtest", "testnet", "signet", "bitcoin"]) ∧
    (name = "regtest" → (getBitcoinChain w).res = .ok .RegressionNetParams) ∧
    (name = "testnet" → (getBitcoinChain w).res = .ok .TestNet3Params) ∧
    (name = "signet" → (getBitcoinChain w).res = .ok .SigNetParams) ∧
    (name = "bitcoin" → (getBitcoinChain w).res = .ok .MainNetParams) := by
  have key : (getBitcoinChain w).res =
      if name = "regtest" then .ok .RegressionNetParams
      else if name = "testnet" then .ok .TestNet3Params
      else if name = "signet" then .ok .SigNetParams
      else if name = "bitcoin" then .ok .MainNetParams
      else .err (.errorsNew "unknown bitcoin network") := by
    unfold getBitcoinChain
    rw [h]
    simp only [bind_eq, M.andThen, callVal]
    split_ifs <;> rfl
  rw [key]
  by_cases h1 : name = "regtest"
  · subst h1; simp
  by_cases h2 : name = "testnet"
  · subst h2; simp
  by_cases h3 : name = "signet"
  · subst h3; simp
  by_cases h4 : name = "bitcoin"
  · subst h4; simp
  simp [h1, h2, h3, h4]

theorem getBitcoinChain_network_witness :
    (demoWorld.getInfoChain = .ok "regtest") ∧
    (getBitcoinChain demoWorld).res = .ok .RegressionNetParams :=
  ⟨rfl, (getBitcoinChain_network demoWorld "regtest" rfl).2.2.1 rfl⟩

end Peerswap
